import Mathlib

/-!
Shallow embedding of `eleroapi.py` (silver085/eleropi_api): a synchronous
HTTP client for the EleroPi blind controller.  Python exceptions are an
explicit `PyExc` type, the network is a parameter (`Server` for HTTP,
`Resolver` for `socket.gethostbyname`), and every method returns its
result together with the HTTP requests it issued and the error-log lines
it emitted, so that request counts, header contents and logging behaviour
are provable.
-/

set_option autoImplicit false

namespace EleroPi

/-- Python exception values relevant to `eleroapi.py`.  Each constructor is
one concrete exception class that can arise in the code's execution:
the three classes the file itself defines (`NoDeviceAvailable`,
`EleroRequestError`, `EleroApiError`), plus the library exceptions its
calls can raise (`requests.exceptions.ConnectionError` from
`Session.request`, `socket.gaierror` from `socket.gethostbyname`,
JSON decode errors from `Response.json`, `KeyError` from dictionary
subscripting, `TypeError` from subscripting a non-dict, `AttributeError`
from reading an unset attribute, and `RuntimeError`). -/
inductive PyExc where
  | requestsConnectionError (msg : String)
  | socketGaierror (msg : String)
  | runtimeError (msg : String)
  | builtinConnectionError (msg : String)
  | jsonDecodeError
  | keyError (key : String)
  | typeError (msg : String)
  | attributeError (name : String)
  | eleroRequestError (msg : String)
  | eleroApiError (msg : String)
  | noDeviceAvailable (msg : String)
  deriving Repr, DecidableEq

/-- Whether an exception is an instance of Python's builtin
`ConnectionError` (the class named by the bare identifier
`ConnectionError` inside `eleroapi.py`, which only does `import requests`).
Class-hierarchy facts: `EleroApiError` subclasses builtin
`ConnectionError` directly (line 23 of the source); the builtin
`ConnectionError` itself of course is one; `requests.exceptions.ConnectionError`
subclasses `requests.exceptions.RequestException`, which subclasses
`IOError`/`OSError`, and is NOT a subclass of the builtin
`ConnectionError`; `socket.gaierror` subclasses `OSError`;
`EleroRequestError` and `NoDeviceAvailable` subclass `BaseException`;
the remaining classes are unrelated to `ConnectionError`. -/
def PyExc.isBuiltinConnectionError : PyExc → Bool
  | .builtinConnectionError _ => true
  | .eleroApiError _ => true
  | _ => false

/-- Whether an exception is an instance of Python's `RuntimeError`.
`socket.gaierror` subclasses `OSError`, which is a sibling of
`RuntimeError` under `Exception`, so it is not one. -/
def PyExc.isRuntimeError : PyExc → Bool
  | .runtimeError _ => true
  | _ => false

/-- JSON values, as produced by `Response.json()` (Python objects:
dict, list, str, int, bool, None). -/
inductive Json where
  | null
  | bool (b : Bool)
  | num (n : Int)
  | str (s : String)
  | arr (xs : List Json)
  | obj (fields : List (String × Json))

mutual
/-- Python `repr` of a decoded JSON body, as interpolated by the f-string
in `EleroRequestError(f"Response: {response.json()}")`.  The exact
formatting is immaterial to the claims; it is a function of the parsed
body only. -/
def jsonRepr : Json → String
  | .null => "None"
  | .bool b => if b then "True" else "False"
  | .num n => toString n
  | .str s => "\x27" ++ s ++ "\x27"
  | .arr xs => "[" ++ jsonReprList xs ++ "]"
  | .obj fs => "\x7b" ++ jsonReprFields fs ++ "\x7d"

def jsonReprList : List Json → String
  | [] => ""
  | [x] => jsonRepr x
  | x :: xs => jsonRepr x ++ ", " ++ jsonReprList xs

def jsonReprFields : List (String × Json) → String
  | [] => ""
  | [(k, v)] => "\x27" ++ k ++ "\x27: " ++ jsonRepr v
  | (k, v) :: fs => "\x27" ++ k ++ "\x27: " ++ jsonRepr v ++ ", " ++ jsonReprFields fs
end

/-- Python truthiness of a decoded JSON value, as used by
`if r["discovery_active"]:`. -/
def truthy : Json → Bool
  | .null => false
  | .bool b => b
  | .num n => n != 0
  | .str s => s.length != 0
  | .arr xs => xs.length != 0
  | .obj fs => fs.length != 0

/-- Python subscripting `r[k]` on a decoded JSON value: a dict lookup that
raises `KeyError` when the key is absent, and `TypeError` when the value
is not a dict (list indices must be integers, other values are not
subscriptable by a string). -/
def jsonGet : Json → String → Except PyExc Json
  | .obj fs, k =>
    match fs.lookup k with
    | some v => .ok v
    | none => .error (.keyError k)
  | _, k => .error (.typeError ("value not subscriptable by key " ++ k))

/-- One HTTP request as handed to `requests.Session.request`: absolute URL,
method, headers (values are the Python objects stored in them), optional
body, and whether the body goes through the `json=` kwarg (`True`) or the
form-encoding `data=` kwarg (`False`). -/
structure HttpRequest where
  url : String
  method : String
  headers : List (String × Json)
  body : Option Json
  isJsonBody : Bool

/-- What `requests.Session.request` does for one request: either raise an
exception (a transport-level failure raises
`requests.exceptions.ConnectionError`) or return a response with a status
code and a body; `body = none` means the body does not parse as JSON, so
`Response.json()` raises a JSON decode error. -/
inductive ServerBehavior where
  | raises (e : PyExc)
  | responds (status : Nat) (body : Option Json)

/-- The network as seen through `requests.Session.request`. -/
def Server : Type := HttpRequest → ServerBehavior

/-- The name-resolution environment as seen through
`socket.gethostbyname`: success returns the resolved address (as an
`Option` so that the literal `is not None` test of the source can be
written; the real `gethostbyname` contract never returns `None` — it
returns an address string or raises `socket.gaierror`), failure raises. -/
def Resolver : Type := String → Except PyExc (Option String)

/-- The class attributes of `UrlConstants`. -/
def UrlConstants.URL_PING : String := "/device/ping"

def UrlConstants.URL_LOGIN : String := "/users/token"

def UrlConstants.URL_GETBLINDS : String := "/blinds/getblinds"

def UrlConstants.TOGGLE_DISCOVERY : String := "/blinds/indiscovery"

/-- The mutable attributes of an `EleroAPI` instance.  `token = none` and
`device_id = none` model the attribute not having been assigned yet
(reading it then raises `AttributeError`). -/
structure ApiState where
  username : String
  password : String
  host : Option String
  baseUrl : String
  isAuthenticated : Bool
  token : Option Json
  device_id : Option Json

/-- Result of a stateless call: the returned value or the raised
exception, the HTTP requests issued, and the `LOGGER.error` lines
emitted. -/
structure OpResult (α : Type) where
  result : Except PyExc α
  trace : List HttpRequest
  logs : List String

/-- Result of a call that can mutate the instance: also carries the
post-call state (Python attribute mutations persist even when the call
then raises). -/
structure StResult (σ : Type) (α : Type) where
  result : Except PyExc α
  state : σ
  trace : List HttpRequest
  logs : List String

/-- Result of a constructor: the constructed state or the raised
exception, the hostnames probed by `socket.gethostbyname`, the HTTP
requests issued, and the `LOGGER.error` lines emitted. -/
structure InitResult (σ : Type) where
  result : Except PyExc σ
  probes : List String
  trace : List HttpRequest
  logs : List String

/-- The header dict built at the top of `_do_request`: starts empty, and
when `self.isAuthenticated` is true, `self.token` is attached under the
custom header name `WWW-Authenticate` (reading `self.token` raises
`AttributeError` when the attribute was never assigned). -/
def requestHeaders (st : ApiState) : Except PyExc (List (String × Json)) :=
  if st.isAuthenticated then
    match st.token with
    | some t => .ok [("WWW-Authenticate", t)]
    | none => .error (.attributeError "token")
  else .ok []

/-- `EleroAPI._do_request` (lines 104-120): build headers, issue the single
request, map non-200 to `EleroRequestError` carrying
`f"Response: {response.json()}"`, return the decoded body on 200.  The
whole try-body is guarded by `except ConnectionError:`, which catches
exactly the exceptions that are instances of the builtin
`ConnectionError`; for those it logs the failing URL via `LOGGER.error`
and raises `EleroApiError`; any other exception propagates unchanged and
unlogged. -/
def EleroAPI.do_request (st : ApiState) (server : Server) (url method : String)
    (data : Option Json) (isJsonBody : Bool) : OpResult Json :=
  match requestHeaders st with
  | .error e => ⟨.error e, [], []⟩
  | .ok headers =>
    let req : HttpRequest := ⟨url, method, headers, data, isJsonBody⟩
    let tryResult : Except PyExc Json :=
      match server req with
      | .raises e => .error e
      | .responds status body =>
        if status ≠ 200 then
          match body with
          | some j => .error (.eleroRequestError ("Response: " ++ jsonRepr j))
          | none => .error .jsonDecodeError
        else
          match body with
          | some j => .ok j
          | none => .error .jsonDecodeError
    match tryResult with
    | .ok j => ⟨.ok j, [req], []⟩
    | .error e =>
      if e.isBuiltinConnectionError then
        ⟨.error (.eleroApiError ("Cannot connect to: " ++ url)), [req],
          ["Connection to " ++ url ++ " failed. Is eleropi running over network?"]⟩
      else ⟨.error e, [req], []⟩

/-- `EleroAPI.get_blinds` (lines 57-60): GET the blinds collection and
return the `blinds` field of the decoded body. -/
def EleroAPI.get_blinds (st : ApiState) (server : Server) : OpResult Json :=
  let url := st.baseUrl ++ UrlConstants.URL_GETBLINDS
  let r := EleroAPI.do_request st server url "GET" none true
  match r.result with
  | .error e => ⟨.error e, r.trace, r.logs⟩
  | .ok j => ⟨jsonGet j "blinds", r.trace, r.logs⟩

/-- `EleroAPI.get_blind` (lines 62-65): GET a single blind at the
path-parameterized sub-resource and return the `blind` field. -/
def EleroAPI.get_blind (st : ApiState) (server : Server) (blindId : String) : OpResult Json :=
  let url := st.baseUrl ++ UrlConstants.URL_GETBLINDS ++ "/" ++ blindId
  let r := EleroAPI.do_request st server url "GET" none true
  match r.result with
  | .error e => ⟨.error e, r.trace, r.logs⟩
  | .ok j => ⟨jsonGet j "blind", r.trace, r.logs⟩

/-- `EleroAPI._device_available` (lines 67-71): probe
`raspberrypi.local` with `socket.gethostbyname`; on a non-`None` result
return that hostname, otherwise probe `eleropi.local` likewise, otherwise
return `None`.  An exception raised by `gethostbyname` propagates
immediately (so a resolution failure on the first hostname prevents the
second from ever being probed).  The second component records the
hostnames actually probed. -/
def EleroAPI.device_available (resolver : Resolver) :
    Except PyExc (Option String) × List String :=
  match resolver "raspberrypi.local" with
  | .error e => (.error e, ["raspberrypi.local"])
  | .ok r1 =>
    if r1.isSome then (.ok (some "raspberrypi.local"), ["raspberrypi.local"])
    else
      match resolver "eleropi.local" with
      | .error e => (.error e, ["raspberrypi.local", "eleropi.local"])
      | .ok r2 =>
        if r2.isSome then (.ok (some "eleropi.local"), ["raspberrypi.local", "eleropi.local"])
        else (.ok none, ["raspberrypi.local", "eleropi.local"])

/-- `EleroAPI._login` (lines 73-82): POST the credentials form-encoded
(`is_json=False`) to the login endpoint; on success set
`self.isAuthenticated = True` FIRST and only then read
`r["access_token"]` into `self.token` — so a missing `access_token`
raises `KeyError` with `isAuthenticated` already flipped to true and
`token` still unset. -/
def EleroAPI.login (st : ApiState) (server : Server) : StResult ApiState Unit :=
  let url := st.baseUrl ++ UrlConstants.URL_LOGIN
  let data : Json := .obj [("username", .str st.username), ("password", .str st.password)]
  let r := EleroAPI.do_request st server url "POST" (some data) false
  match r.result with
  | .error e => ⟨.error e, st, r.trace, r.logs⟩
  | .ok j =>
    let st1 := { st with isAuthenticated := true }
    match jsonGet j "access_token" with
    | .error e => ⟨.error e, st1, r.trace, r.logs⟩
    | .ok tok => ⟨.ok (), { st1 with token := some tok }, r.trace, r.logs⟩

/-- `EleroAPI._ping` (lines 84-88): GET the ping endpoint and store the
`device_unique_id` field in `self.device_id`. -/
def EleroAPI.ping (st : ApiState) (server : Server) : StResult ApiState Unit :=
  let url := st.baseUrl ++ UrlConstants.URL_PING
  let r := EleroAPI.do_request st server url "GET" none true
  match r.result with
  | .error e => ⟨.error e, st, r.trace, r.logs⟩
  | .ok j =>
    match jsonGet j "device_unique_id" with
    | .error e => ⟨.error e, st, r.trace, r.logs⟩
    | .ok v => ⟨.ok (), { st with device_id := some v }, r.trace, r.logs⟩

/-- `EleroAPI.start_discovery` (lines 90-95): GET the discovery status;
if `discovery_active` is truthy, return; otherwise PUT, and if the PUT
response's `discovery_active` is falsy, raise
`EleroRequestError("Cannot put device in discovery")`. -/
def EleroAPI.start_discovery (st : ApiState) (server : Server) : OpResult Unit :=
  let url := st.baseUrl ++ UrlConstants.TOGGLE_DISCOVERY
  let r := EleroAPI.do_request st server url "GET" none true
  match r.result with
  | .error e => ⟨.error e, r.trace, r.logs⟩
  | .ok j =>
    match jsonGet j "discovery_active" with
    | .error e => ⟨.error e, r.trace, r.logs⟩
    | .ok v =>
      if truthy v then ⟨.ok (), r.trace, r.logs⟩
      else
        let r2 := EleroAPI.do_request st server url "PUT" none true
        match r2.result with
        | .error e => ⟨.error e, r.trace ++ r2.trace, r.logs ++ r2.logs⟩
        | .ok j2 =>
          match jsonGet j2 "discovery_active" with
          | .error e => ⟨.error e, r.trace ++ r2.trace, r.logs ++ r2.logs⟩
          | .ok v2 =>
            if !truthy v2 then
              ⟨.error (.eleroRequestError "Cannot put device in discovery"),
                r.trace ++ r2.trace, r.logs ++ r2.logs⟩
            else ⟨.ok (), r.trace ++ r2.trace, r.logs ++ r2.logs⟩

/-- `EleroAPI.stop_discovery` (lines 97-102): GET the discovery status;
if `discovery_active` is falsy, return; otherwise PUT, and if the PUT
response's `discovery_active` is still truthy, raise
`EleroRequestError("Failed putting device in stop discovery")`. -/
def EleroAPI.stop_discovery (st : ApiState) (server : Server) : OpResult Unit :=
  let url := st.baseUrl ++ UrlConstants.TOGGLE_DISCOVERY
  let r := EleroAPI.do_request st server url "GET" none true
  match r.result with
  | .error e => ⟨.error e, r.trace, r.logs⟩
  | .ok j =>
    match jsonGet j "discovery_active" with
    | .error e => ⟨.error e, r.trace, r.logs⟩
    | .ok v =>
      if !truthy v then ⟨.ok (), r.trace, r.logs⟩
      else
        let r2 := EleroAPI.do_request st server url "PUT" none true
        match r2.result with
        | .error e => ⟨.error e, r.trace ++ r2.trace, r.logs ++ r2.logs⟩
        | .ok j2 =>
          match jsonGet j2 "discovery_active" with
          | .error e => ⟨.error e, r.trace ++ r2.trace, r.logs ++ r2.logs⟩
          | .ok v2 =>
            if truthy v2 then
              ⟨.error (.eleroRequestError "Failed putting device in stop discovery"),
                r.trace ++ r2.trace, r.logs ++ r2.logs⟩
            else ⟨.ok (), r.trace ++ r2.trace, r.logs ++ r2.logs⟩

/-- Python string interpolation of `self.host` into
`f"http://{self.host}:8000"`: `None` prints as `"None"`. -/
def pyStrOptHost : Option String → String
  | none => "None"
  | some s => s

/-- `EleroAPI.__init__` (lines 35-55): store credentials; when
`autodiscovery` is true, call `_device_available` and convert a
`RuntimeError` (only!) into `NoDeviceAvailable("Can't find any device
over the network")` — any other exception, in particular the
`socket.gaierror` that `gethostbyname` actually raises on resolution
failure, propagates unchanged; otherwise take the `host` argument.
Then set `baseUrl` (`http://localhost:8000` when `isLocal`), initialize
`isAuthenticated = False` and `device_id = None`, and run `_ping` then
`_login`; a failure of either propagates out of the constructor. -/
def EleroAPI.init (username password : String) (host : Option String)
    (autodiscovery : Bool) (isLocal : Bool) (resolver : Resolver) (server : Server) :
    InitResult ApiState :=
  let hostStep : Except PyExc (Option String) × List String :=
    if autodiscovery then
      match EleroAPI.device_available resolver with
      | (.error e, probes) =>
        (if e.isRuntimeError then
           .error (.noDeviceAvailable "Can't find any device over the network")
         else .error e, probes)
      | (.ok h, probes) => (.ok h, probes)
    else (.ok host, [])
  match hostStep with
  | (.error e, probes) => ⟨.error e, probes, [], []⟩
  | (.ok h, probes) =>
    let baseUrl := if !isLocal then "http://" ++ pyStrOptHost h ++ ":8000"
                   else "http://localhost:8000"
    let st0 : ApiState :=
      { username := username, password := password, host := h, baseUrl := baseUrl,
        isAuthenticated := false, token := none, device_id := none }
    let p := EleroAPI.ping st0 server
    match p.result with
    | .error e => ⟨.error e, probes, p.trace, p.logs⟩
    | .ok _ =>
      let l := EleroAPI.login p.state server
      match l.result with
      | .error e => ⟨.error e, probes, p.trace ++ l.trace, p.logs ++ l.logs⟩
      | .ok _ => ⟨.ok l.state, probes, p.trace ++ l.trace, p.logs ++ l.logs⟩

/-- The attributes of an `EleroClient` instance.  `blinds = none` models
the attribute not yet assigned. -/
structure ClientState where
  api : ApiState
  device_id : Option Json
  blinds : Option Json

/-- `EleroClient.update` (lines 133-134): `self.blinds =
self.api.get_blinds()` — the cache is reassigned only when `get_blinds`
returns; when it raises, the exception propagates and `blinds` keeps its
previous value. -/
def EleroClient.update (cs : ClientState) (server : Server) : StResult ClientState Unit :=
  let r := EleroAPI.get_blinds cs.api server
  match r.result with
  | .error e => ⟨.error e, cs, r.trace, r.logs⟩
  | .ok b => ⟨.ok (), { cs with blinds := some b }, r.trace, r.logs⟩

/-- `EleroClient.__init__` (lines 128-131): build
`EleroAPI(username=username, password=password, isLocal=True)` — NOTE the
`autodiscovery` parameter is left at its default `True` and `host` at its
default `None` — then copy `device_id` from the API object and call
`update()` to fetch the first blinds listing. -/
def EleroClient.init (username password : String) (resolver : Resolver) (server : Server) :
    InitResult ClientState :=
  let a := EleroAPI.init username password none true true resolver server
  match a.result with
  | .error e => ⟨.error e, a.probes, a.trace, a.logs⟩
  | .ok api =>
    let cs0 : ClientState := { api := api, device_id := api.device_id, blinds := none }
    let u := EleroClient.update cs0 server
    match u.result with
    | .error e => ⟨.error e, a.probes, a.trace ++ u.trace, a.logs ++ u.logs⟩
    | .ok _ => ⟨.ok u.state, a.probes, a.trace ++ u.trace, a.logs ++ u.logs⟩

/-! Concrete fixtures used to evaluate the embedding. -/

/-- A resolution environment in which no hostname resolves:
`socket.gethostbyname` raises `socket.gaierror` on every probe. -/
def failResolver : Resolver := fun _ => .error (.socketGaierror "Name or service not known")

/-- A resolution environment in which `raspberrypi.local` resolves and
nothing else does. -/
def okResolver : Resolver :=
  fun h => if h = "raspberrypi.local" then .ok (some "192.168.1.5")
           else .error (.socketGaierror "Name or service not known")

/-- A network on which every request suffers a transport-level failure:
`requests.Session.request` raises `requests.exceptions.ConnectionError`. -/
def connFailServer : Server := fun _ => .raises (.requestsConnectionError "Connection refused")

/-- The mock server of the end-to-end scenario: ping answers
`device_unique_id = "abc123"`, login answers `access_token = "tok1"`,
the listing answers two blinds `b1`, `b2`; everything else is 404. -/
def mockServer : Server := fun req =>
  if req.url = "http://localhost:8000/device/ping" then
    .responds 200 (some (.obj [("device_unique_id", .str "abc123")]))
  else if req.url = "http://localhost:8000/users/token" then
    .responds 200 (some (.obj [("access_token", .str "tok1")]))
  else if req.url = "http://localhost:8000/blinds/getblinds" then
    .responds 200 (some (.obj [("blinds",
      .arr [.obj [("blind_id", .str "b1")], .obj [("blind_id", .str "b2")]])]))
  else .responds 404 none

/-- The listing value served by `mockServer`. -/
def mockBlinds : Json := .arr [.obj [("blind_id", .str "b1")], .obj [("blind_id", .str "b2")]]

/-- An `EleroAPI` state before login, as produced by the constructor just
before `_ping` runs with the local flag set. -/
def unauthState : ApiState :=
  { username := "u", password := "p", host := some "localhost",
    baseUrl := "http://localhost:8000", isAuthenticated := false,
    token := none, device_id := none }

/-- An `EleroAPI` state after a successful login with token `tok1`. -/
def authState : ApiState :=
  { unauthState with isAuthenticated := true, token := some (.str "tok1") }

/-! Helper lemmas about `_do_request`. -/

theorem isBCE_eleroRequestError (m : String) :
    (PyExc.eleroRequestError m).isBuiltinConnectionError = false := rfl

theorem isBCE_jsonDecodeError :
    PyExc.jsonDecodeError.isBuiltinConnectionError = false := rfl

theorem requestHeaders_of_unauth {st : ApiState} (h : st.isAuthenticated = false) :
    requestHeaders st = .ok [] := by
  unfold requestHeaders
  rw [h]
  simp

theorem requestHeaders_of_auth {st : ApiState} {t : Json}
    (h : st.isAuthenticated = true) (ht : st.token = some t) :
    requestHeaders st = .ok [("WWW-Authenticate", t)] := by
  unfold requestHeaders
  rw [h, ht]
  simp

/-- When the server returns 200 with a JSON body, `_do_request` returns the
decoded body, after issuing exactly that one request and logging nothing. -/
theorem do_request_ok {st : ApiState} {server : Server} {url method : String}
    {data : Option Json} {isj : Bool} {hdrs : List (String × Json)} {j : Json}
    (hh : requestHeaders st = .ok hdrs)
    (hs : server ⟨url, method, hdrs, data, isj⟩ = .responds 200 (some j)) :
    EleroAPI.do_request st server url method data isj =
      ⟨.ok j, [⟨url, method, hdrs, data, isj⟩], []⟩ := by
  unfold EleroAPI.do_request
  rw [hh]
  simp only [hs]
  rfl

/-- When the server returns a status other than 200 with a JSON-parseable
body, `_do_request` raises `EleroRequestError` rendering the parsed body. -/
theorem do_request_non200 {st : ApiState} {server : Server} {url method : String}
    {data : Option Json} {isj : Bool} {hdrs : List (String × Json)} {status : Nat} {j : Json}
    (hh : requestHeaders st = .ok hdrs)
    (hs : server ⟨url, method, hdrs, data, isj⟩ = .responds status (some j))
    (hst : status ≠ 200) :
    EleroAPI.do_request st server url method data isj =
      ⟨.error (.eleroRequestError ("Response: " ++ jsonRepr j)),
        [⟨url, method, hdrs, data, isj⟩], []⟩ := by
  unfold EleroAPI.do_request
  rw [hh]
  simp only [hs]
  simp [hst]
  rfl

/-- When the response body does not parse as JSON, `_do_request` raises the
JSON decode error of `response.json()`, whatever the status code. -/
theorem do_request_nojson {st : ApiState} {server : Server} {url method : String}
    {data : Option Json} {isj : Bool} {hdrs : List (String × Json)} {status : Nat}
    (hh : requestHeaders st = .ok hdrs)
    (hs : server ⟨url, method, hdrs, data, isj⟩ = .responds status none) :
    EleroAPI.do_request st server url method data isj =
      ⟨.error .jsonDecodeError, [⟨url, method, hdrs, data, isj⟩], []⟩ := by
  unfold EleroAPI.do_request
  rw [hh]
  simp only [hs]
  by_cases h : status = 200 <;> simp [h] <;> rfl

/-- When `Session.request` raises an exception that is not an instance of
the builtin `ConnectionError`, `_do_request` propagates it unchanged and
logs nothing. -/
theorem do_request_raises_uncaught {st : ApiState} {server : Server} {url method : String}
    {data : Option Json} {isj : Bool} {hdrs : List (String × Json)} {e : PyExc}
    (hh : requestHeaders st = .ok hdrs)
    (hs : server ⟨url, method, hdrs, data, isj⟩ = .raises e)
    (he : e.isBuiltinConnectionError = false) :
    EleroAPI.do_request st server url method data isj =
      ⟨.error e, [⟨url, method, hdrs, data, isj⟩], []⟩ := by
  unfold EleroAPI.do_request
  rw [hh]
  simp only [hs]
  simp [he]

/-- When `Session.request` raises an instance of the builtin
`ConnectionError`, the except-clause fires: the URL is logged and
`EleroApiError` is raised. -/
theorem do_request_raises_caught {st : ApiState} {server : Server} {url method : String}
    {data : Option Json} {isj : Bool} {hdrs : List (String × Json)} {e : PyExc}
    (hh : requestHeaders st = .ok hdrs)
    (hs : server ⟨url, method, hdrs, data, isj⟩ = .raises e)
    (he : e.isBuiltinConnectionError = true) :
    EleroAPI.do_request st server url method data isj =
      ⟨.error (.eleroApiError ("Cannot connect to: " ++ url)),
        [⟨url, method, hdrs, data, isj⟩],
        ["Connection to " ++ url ++ " failed. Is eleropi running over network?"]⟩ := by
  unfold EleroAPI.do_request
  rw [hh]
  simp only [hs]
  simp [he]

/-- Once the header dict is built, `_do_request` issues exactly one
request, whatever the outcome. -/
theorem do_request_trace {st : ApiState} {server : Server} {url method : String}
    {data : Option Json} {isj : Bool} {hdrs : List (String × Json)}
    (hh : requestHeaders st = .ok hdrs) :
    (EleroAPI.do_request st server url method data isj).trace =
      [⟨url, method, hdrs, data, isj⟩] := by
  unfold EleroAPI.do_request
  rw [hh]
  cases hsrv : server ⟨url, method, hdrs, data, isj⟩ with
  | raises e => cases he : e.isBuiltinConnectionError <;> simp [hsrv, he]
  | responds status body =>
    by_cases h200 : status = 200 <;> cases body <;>
      simp [hsrv, h200, PyExc.isBuiltinConnectionError]

/-- `_ping` issues the requests of its single `_do_request` call. -/
theorem ping_trace (st : ApiState) (server : Server) :
    (EleroAPI.ping st server).trace =
      (EleroAPI.do_request st server (st.baseUrl ++ UrlConstants.URL_PING) "GET" none true).trace := by
  simp only [EleroAPI.ping]
  split
  · rfl
  · split <;> rfl

/-- `_ping` never changes `isAuthenticated`. -/
theorem ping_isAuthenticated (st : ApiState) (server : Server) :
    (EleroAPI.ping st server).state.isAuthenticated = st.isAuthenticated := by
  simp only [EleroAPI.ping]
  split
  · rfl
  · split <;> rfl

/-- `_login` issues the requests of its single `_do_request` call. -/
theorem login_trace (st : ApiState) (server : Server) :
    (EleroAPI.login st server).trace =
      (EleroAPI.do_request st server (st.baseUrl ++ UrlConstants.URL_LOGIN) "POST"
        (some (.obj [("username", .str st.username), ("password", .str st.password)]))
        false).trace := by
  simp only [EleroAPI.login]
  split
  · rfl
  · split <;> rfl

/-- Successful `_ping`: stores the `device_unique_id` field. -/
theorem ping_ok {st : ApiState} {server : Server} {g d : Json}
    (hA : st.isAuthenticated = false)
    (hs : server ⟨st.baseUrl ++ UrlConstants.URL_PING, "GET", [], none, true⟩ =
            .responds 200 (some g))
    (hd : jsonGet g "device_unique_id" = .ok d) :
    EleroAPI.ping st server =
      ⟨.ok (), { st with device_id := some d },
        [⟨st.baseUrl ++ UrlConstants.URL_PING, "GET", [], none, true⟩], []⟩ := by
  simp only [EleroAPI.ping]
  rw [do_request_ok (requestHeaders_of_unauth hA) hs]
  dsimp only
  rw [hd]

/-- Successful `_login`: flips `isAuthenticated` and stores the token. -/
theorem login_ok {st : ApiState} {server : Server} {g tok : Json}
    (hA : st.isAuthenticated = false)
    (hs : server ⟨st.baseUrl ++ UrlConstants.URL_LOGIN, "POST",
            [], some (.obj [("username", .str st.username), ("password", .str st.password)]),
            false⟩ = .responds 200 (some g))
    (ht : jsonGet g "access_token" = .ok tok) :
    EleroAPI.login st server =
      ⟨.ok (), { st with isAuthenticated := true, token := some tok },
        [⟨st.baseUrl ++ UrlConstants.URL_LOGIN, "POST",
          [], some (.obj [("username", .str st.username), ("password", .str st.password)]),
          false⟩], []⟩ := by
  simp only [EleroAPI.login]
  rw [do_request_ok (requestHeaders_of_unauth hA) hs]
  dsimp only
  rw [ht]

/-- Successful `get_blinds`: returns the `blinds` field. -/
theorem get_blinds_ok {st : ApiState} {server : Server} {hdrs : List (String × Json)} {g v : Json}
    (hh : requestHeaders st = .ok hdrs)
    (hs : server ⟨st.baseUrl ++ UrlConstants.URL_GETBLINDS, "GET", hdrs, none, true⟩ =
            .responds 200 (some g))
    (hv : jsonGet g "blinds" = .ok v) :
    EleroAPI.get_blinds st server =
      ⟨.ok v, [⟨st.baseUrl ++ UrlConstants.URL_GETBLINDS, "GET", hdrs, none, true⟩], []⟩ := by
  simp only [EleroAPI.get_blinds]
  rw [do_request_ok hh hs]
  dsimp only
  rw [hv]

/-- Successful `get_blind`: returns the `blind` field of the
path-parameterized sub-resource. -/
theorem get_blind_ok {st : ApiState} {server : Server} {hdrs : List (String × Json)} {g w : Json}
    {blindId : String}
    (hh : requestHeaders st = .ok hdrs)
    (hs : server ⟨st.baseUrl ++ UrlConstants.URL_GETBLINDS ++ "/" ++ blindId, "GET",
            hdrs, none, true⟩ = .responds 200 (some g))
    (hw : jsonGet g "blind" = .ok w) :
    EleroAPI.get_blind st server blindId =
      ⟨.ok w, [⟨st.baseUrl ++ UrlConstants.URL_GETBLINDS ++ "/" ++ blindId, "GET",
        hdrs, none, true⟩], []⟩ := by
  simp only [EleroAPI.get_blind]
  rw [do_request_ok hh hs]
  dsimp only
  rw [hw]

/-- Full characterization of a successful `EleroClient` construction: the
`autodiscovery` default (`True`) makes the constructor probe
`raspberrypi.local`; when that resolves, the host is selected but — the
local flag being set — the base URL is `http://localhost:8000`; the
constructor then pings, logs in, and fetches the first blinds listing,
caching the device id and the listing. -/
theorem client_init_ok (u p ip : String) (resolver : Resolver) (server : Server)
    (gp gl gb dj tok bl : Json)
    (hres : resolver "raspberrypi.local" = .ok (some ip))
    (hping : server ⟨"http://localhost:8000" ++ UrlConstants.URL_PING, "GET", [], none, true⟩ =
      .responds 200 (some gp))
    (hpingf : jsonGet gp "device_unique_id" = .ok dj)
    (hlogin : server ⟨"http://localhost:8000" ++ UrlConstants.URL_LOGIN, "POST", [],
        some (.obj [("username", .str u), ("password", .str p)]), false⟩ =
      .responds 200 (some gl))
    (hloginf : jsonGet gl "access_token" = .ok tok)
    (hblinds : server ⟨"http://localhost:8000" ++ UrlConstants.URL_GETBLINDS, "GET",
        [("WWW-Authenticate", tok)], none, true⟩ = .responds 200 (some gb))
    (hblindsf : jsonGet gb "blinds" = .ok bl) :
    EleroClient.init u p resolver server =
      ⟨.ok ⟨⟨u, p, some "raspberrypi.local", "http://localhost:8000", true, some tok, some dj⟩,
            some dj, some bl⟩,
        ["raspberrypi.local"],
        [⟨"http://localhost:8000" ++ UrlConstants.URL_PING, "GET", [], none, true⟩,
         ⟨"http://localhost:8000" ++ UrlConstants.URL_LOGIN, "POST", [],
            some (.obj [("username", .str u), ("password", .str p)]), false⟩,
         ⟨"http://localhost:8000" ++ UrlConstants.URL_GETBLINDS, "GET",
            [("WWW-Authenticate", tok)], none, true⟩],
        []⟩ := by
  have h0 : EleroAPI.device_available resolver =
      (.ok (some "raspberrypi.local"), ["raspberrypi.local"]) := by
    unfold EleroAPI.device_available
    rw [hres]
    rfl
  simp only [EleroClient.init, EleroAPI.init, h0, Bool.not_true, if_true, if_false,
    Bool.false_eq_true, ite_false, ite_true]
  rw [ping_ok rfl hping hpingf]
  dsimp only
  rw [login_ok rfl hlogin hloginf]
  dsimp only
  simp only [EleroClient.update]
  rw [get_blinds_ok (requestHeaders_of_auth rfl rfl) hblinds hblindsf]
  rfl

/-- A server whose discovery-status GET reports inactive and whose
discovery PUT reports active (the successful enable flow). -/
def discFlipServer : Server := fun req =>
  if req.url = "http://localhost:8000/blinds/indiscovery" then
    (if req.method = "GET" then .responds 200 (some (.obj [("discovery_active", .bool false)]))
     else .responds 200 (some (.obj [("discovery_active", .bool true)])))
  else .responds 404 none

/-- A server answering 500 with a body that does not parse as JSON. -/
def unparseableServer : Server := fun _ => .responds 500 none

/-- A server answering 500 with a JSON error body. -/
def err500Server : Server := fun _ => .responds 500 (some (.obj [("detail", .str "boom")]))

/-- A server whose 200 login response lacks the `access_token` field. -/
def badLoginServer : Server := fun req =>
  if req.url = "http://localhost:8000/users/token" then
    .responds 200 (some (.obj [("detail", .str "no token here")]))
  else .responds 404 none

/-- A server answering the blinds collection and the single blind `b1`. -/
def blindsServer : Server := fun req =>
  if req.url = "http://localhost:8000/blinds/getblinds" then
    .responds 200 (some (.obj [("blinds", mockBlinds)]))
  else if req.url = "http://localhost:8000/blinds/getblinds/b1" then
    .responds 200 (some (.obj [("blind", .obj [("blind_id", .str "b1"), ("position", .num 40)])]))
  else .responds 404 none

/-! The claims. -/

/-- C1: evaluation of the code at the failing input.  A transport-level
failure makes `requests.Session.request` raise
`requests.exceptions.ConnectionError`, which is not an instance of the
builtin `ConnectionError` that the except-clause of `_do_request` names
(the module only does `import requests`, so the bare name is the
builtin, and requests' class subclasses `RequestException`/`IOError`, not
the builtin `ConnectionError`).  The exception therefore propagates raw:
no `EleroApiError` is raised and the failing URL is never logged,
contradicting the claim that every transport-level failure yields
`EleroApiError` after logging. -/
theorem C1_transport_failure_escapes_unlogged :
    EleroAPI.do_request unauthState connFailServer
        "http://localhost:8000/blinds/getblinds" "GET" none true =
      ⟨.error (.requestsConnectionError "Connection refused"),
        [⟨"http://localhost:8000/blinds/getblinds", "GET", [], none, true⟩], []⟩ := rfl

/-- C2: evaluation of the code at the failing input.  With autodiscovery
enabled and no hostname resolving, `socket.gethostbyname` raises
`socket.gaierror` already on the first probe; the constructor's
except-clause catches only `RuntimeError`, so construction fails with the
raw `socket.gaierror` — `NoDeviceAvailable` is unreachable — after a
single resolution attempt (the second hostname is never probed, because
the exception aborts `_device_available`) and no HTTP request. -/
theorem C2_unresolvable_probe_escapes :
    EleroAPI.init "u" "p" none true false failResolver mockServer =
      ⟨.error (.socketGaierror "Name or service not known"),
        ["raspberrypi.local"], [], []⟩ := rfl

/-- C3 counterexample: constructing the Facade Client from username and
password alone does probe `raspberrypi.local` — the `autodiscovery`
argument of `EleroAPI` is left at its default `True` — refuting
"autodiscovery disabled ... no hostname probing occurs". -/
theorem C3_probing_occurs :
    (EleroClient.init "ha_user" "pw" okResolver mockServer).probes = ["raspberrypi.local"] ∧
    ["raspberrypi.local"] ≠ ([] : List String) := ⟨rfl, by decide⟩

/-- C3 (amended): the Facade constructor builds the API client with the
local flag set but with autodiscovery left at its default (enabled), so
the hostname probe runs — and must succeed for construction to proceed —
while the base URL is nonetheless `http://localhost:8000`; construction
then immediately fetches and caches the device id and the full blinds
listing. -/
theorem C3_local_flag_and_eager_fetch (u p ip : String) (resolver : Resolver) (server : Server)
    (gp gl gb dj tok bl : Json)
    (hres : resolver "raspberrypi.local" = .ok (some ip))
    (hping : server ⟨"http://localhost:8000" ++ UrlConstants.URL_PING, "GET", [], none, true⟩ =
      .responds 200 (some gp))
    (hpingf : jsonGet gp "device_unique_id" = .ok dj)
    (hlogin : server ⟨"http://localhost:8000" ++ UrlConstants.URL_LOGIN, "POST", [],
        some (.obj [("username", .str u), ("password", .str p)]), false⟩ =
      .responds 200 (some gl))
    (hloginf : jsonGet gl "access_token" = .ok tok)
    (hblinds : server ⟨"http://localhost:8000" ++ UrlConstants.URL_GETBLINDS, "GET",
        [("WWW-Authenticate", tok)], none, true⟩ = .responds 200 (some gb))
    (hblindsf : jsonGet gb "blinds" = .ok bl) :
    (EleroClient.init u p resolver server).probes = ["raspberrypi.local"] ∧
    (EleroClient.init u p resolver server).result =
      .ok ⟨⟨u, p, some "raspberrypi.local", "http://localhost:8000", true, some tok, some dj⟩,
           some dj, some bl⟩ := by
  rw [client_init_ok u p ip resolver server gp gl gb dj tok bl hres hping hpingf hlogin
    hloginf hblinds hblindsf]
  exact ⟨rfl, rfl⟩

/-- C3 witness: the amended statement evaluated on the mock server with a
resolving environment. -/
theorem C3_local_flag_and_eager_fetch_witness :
    (EleroClient.init "u" "p" okResolver mockServer).probes = ["raspberrypi.local"] ∧
    (EleroClient.init "u" "p" okResolver mockServer).result =
      .ok ⟨⟨"u", "p", some "raspberrypi.local", "http://localhost:8000", true,
            some (.str "tok1"), some (.str "abc123")⟩,
           some (.str "abc123"), some mockBlinds⟩ :=
  C3_local_flag_and_eager_fetch "u" "p" "192.168.1.5" okResolver mockServer
    (.obj [("device_unique_id", .str "abc123")])
    (.obj [("access_token", .str "tok1")])
    (.obj [("blinds", mockBlinds)])
    (.str "abc123") (.str "tok1") mockBlinds rfl rfl rfl rfl rfl rfl rfl

/-- C4: `start_discovery` GETs the discovery status and returns after that
single request when `discovery_active` is already true; otherwise it
issues exactly one PUT and raises
`EleroRequestError("Cannot put device in discovery")` precisely when the
PUT response's `discovery_active` field is not true; `stop_discovery` is
the exact mirror (single-request no-op when already inactive, otherwise
PUT and fail with
`EleroRequestError("Failed putting device in stop discovery")` precisely
when the PUT response still reports active). -/
theorem C4_discovery_toggle (st : ApiState) (server : Server) (hdrs : List (String × Json))
    (g gput : Json) (b2 : Bool)
    (hh : requestHeaders st = .ok hdrs)
    (hGET : server ⟨st.baseUrl ++ UrlConstants.TOGGLE_DISCOVERY, "GET", hdrs, none, true⟩ =
      .responds 200 (some g))
    (hPUT : server ⟨st.baseUrl ++ UrlConstants.TOGGLE_DISCOVERY, "PUT", hdrs, none, true⟩ =
      .responds 200 (some gput))
    (hput : jsonGet gput "discovery_active" = .ok (.bool b2)) :
    (jsonGet g "discovery_active" = .ok (.bool true) →
      EleroAPI.start_discovery st server =
        ⟨.ok (), [⟨st.baseUrl ++ UrlConstants.TOGGLE_DISCOVERY, "GET", hdrs, none, true⟩],
          []⟩) ∧
    (jsonGet g "discovery_active" = .ok (.bool false) →
      EleroAPI.start_discovery st server =
        ⟨if b2 then .ok () else .error (.eleroRequestError "Cannot put device in discovery"),
         [⟨st.baseUrl ++ UrlConstants.TOGGLE_DISCOVERY, "GET", hdrs, none, true⟩,
          ⟨st.baseUrl ++ UrlConstants.TOGGLE_DISCOVERY, "PUT", hdrs, none, true⟩], []⟩) ∧
    (jsonGet g "discovery_active" = .ok (.bool false) →
      EleroAPI.stop_discovery st server =
        ⟨.ok (), [⟨st.baseUrl ++ UrlConstants.TOGGLE_DISCOVERY, "GET", hdrs, none, true⟩],
          []⟩) ∧
    (jsonGet g "discovery_active" = .ok (.bool true) →
      EleroAPI.stop_discovery st server =
        ⟨if b2 then .error (.eleroRequestError "Failed putting device in stop discovery")
          else .ok (),
         [⟨st.baseUrl ++ UrlConstants.TOGGLE_DISCOVERY, "GET", hdrs, none, true⟩,
          ⟨st.baseUrl ++ UrlConstants.TOGGLE_DISCOVERY, "PUT", hdrs, none, true⟩], []⟩) := by
  refine ⟨fun hg => ?_, fun hg => ?_, fun hg => ?_, fun hg => ?_⟩
  · simp only [EleroAPI.start_discovery]
    rw [do_request_ok hh hGET]
    simp only [hg]
    rfl
  · simp only [EleroAPI.start_discovery]
    rw [do_request_ok hh hGET]
    simp only [hg, truthy]
    rw [do_request_ok hh hPUT]
    simp only [hput, truthy]
    cases b2 <;> rfl
  · simp only [EleroAPI.stop_discovery]
    rw [do_request_ok hh hGET]
    simp only [hg]
    rfl
  · simp only [EleroAPI.stop_discovery]
    rw [do_request_ok hh hGET]
    simp only [hg, truthy]
    rw [do_request_ok hh hPUT]
    simp only [hput, truthy]
    cases b2 <;> rfl

/-- C4 witness: against a server whose GET reports discovery inactive and
whose PUT reports it active, `start_discovery` issues GET then PUT and
succeeds, and `stop_discovery` stops after the single GET. -/
theorem C4_discovery_toggle_witness :
    EleroAPI.start_discovery authState discFlipServer =
      ⟨.ok (), [⟨"http://localhost:8000/blinds/indiscovery", "GET",
          [("WWW-Authenticate", .str "tok1")], none, true⟩,
        ⟨"http://localhost:8000/blinds/indiscovery", "PUT",
          [("WWW-Authenticate", .str "tok1")], none, true⟩], []⟩ ∧
    EleroAPI.stop_discovery authState discFlipServer =
      ⟨.ok (), [⟨"http://localhost:8000/blinds/indiscovery", "GET",
          [("WWW-Authenticate", .str "tok1")], none, true⟩], []⟩ := by
  have h := C4_discovery_toggle authState discFlipServer
    [("WWW-Authenticate", .str "tok1")]
    (.obj [("discovery_active", .bool false)])
    (.obj [("discovery_active", .bool true)]) true rfl rfl rfl rfl
  exact ⟨h.2.1 rfl, h.2.2.1 rfl⟩

/-- C5: the token is attached (under the custom header `WWW-Authenticate`)
to every request issued while `isAuthenticated` is true, and no request
issued while it is false carries any header — in particular neither the
ping request nor the login request itself, both of which run before
`isAuthenticated` is first set (and `_ping` does not change the flag). -/
theorem C5_auth_header (st : ApiState) (server : Server) (url method : String)
    (data : Option Json) (isj : Bool) (t : Json) :
    (st.isAuthenticated = true → st.token = some t →
      (EleroAPI.do_request st server url method data isj).trace =
        [⟨url, method, [("WWW-Authenticate", t)], data, isj⟩]) ∧
    (st.isAuthenticated = false →
      (EleroAPI.do_request st server url method data isj).trace =
        [⟨url, method, [], data, isj⟩]) ∧
    (st.isAuthenticated = false →
      ∀ req ∈ (EleroAPI.ping st server).trace, req.headers = []) ∧
    (st.isAuthenticated = false →
      ∀ req ∈ (EleroAPI.login st server).trace, req.headers = []) ∧
    (EleroAPI.ping st server).state.isAuthenticated = st.isAuthenticated := by
  refine ⟨fun hA hT => do_request_trace (requestHeaders_of_auth hA hT),
    fun hA => do_request_trace (requestHeaders_of_unauth hA),
    fun hA => ?_, fun hA => ?_, ping_isAuthenticated st server⟩
  · rw [ping_trace, do_request_trace (requestHeaders_of_unauth hA)]
    intro req hreq
    simp only [List.mem_singleton] at hreq
    subst hreq
    rfl
  · rw [login_trace, do_request_trace (requestHeaders_of_unauth hA)]
    intro req hreq
    simp only [List.mem_singleton] at hreq
    subst hreq
    rfl

/-- C5 witness: an authenticated request carries the token header, an
unauthenticated one carries none, and every request of `_ping` before
login is headerless. -/
theorem C5_auth_header_witness :
    (EleroAPI.do_request authState mockServer "http://localhost:8000/blinds/getblinds"
        "GET" none true).trace =
      [⟨"http://localhost:8000/blinds/getblinds", "GET",
        [("WWW-Authenticate", .str "tok1")], none, true⟩] ∧
    (EleroAPI.do_request unauthState mockServer "http://localhost:8000/device/ping"
        "GET" none true).trace =
      [⟨"http://localhost:8000/device/ping", "GET", [], none, true⟩] ∧
    ∀ req ∈ (EleroAPI.ping unauthState mockServer).trace, req.headers = [] := by
  refine ⟨(C5_auth_header authState mockServer "http://localhost:8000/blinds/getblinds"
      "GET" none true (.str "tok1")).1 rfl rfl,
    (C5_auth_header unauthState mockServer "http://localhost:8000/device/ping"
      "GET" none true (.str "tok1")).2.1 rfl,
    (C5_auth_header unauthState mockServer "http://localhost:8000/device/ping"
      "GET" none true (.str "tok1")).2.2.1 rfl⟩

/-- C6 counterexample: a non-200 response whose body does not parse as
JSON makes `_do_request` raise the JSON decode error of
`response.json()` — not an `EleroRequestError` carrying the raw body —
refuting the "(or, when the body is not parseable JSON, the raw) response
body" part of the claim. -/
theorem C6_unparseable_body_escapes :
    EleroAPI.do_request unauthState unparseableServer
        "http://localhost:8000/blinds/getblinds" "GET" none true =
      ⟨.error .jsonDecodeError,
        [⟨"http://localhost:8000/blinds/getblinds", "GET", [], none, true⟩], []⟩ := rfl

/-- C6 (amended): for every response with a status code other than 200
whose body parses as JSON, `_do_request` raises `EleroRequestError`
carrying the parsed response body; when the body is not parseable JSON, a
JSON decode error propagates instead (there is no raw-body fallback). -/
theorem C6_non200_request_error (st : ApiState) (server : Server) (url method : String)
    (data : Option Json) (isj : Bool) (hdrs : List (String × Json)) (status : Nat) (j : Json)
    (hh : requestHeaders st = .ok hdrs)
    (hs : server ⟨url, method, hdrs, data, isj⟩ = .responds status (some j))
    (hst : status ≠ 200) :
    (EleroAPI.do_request st server url method data isj).result =
      .error (.eleroRequestError ("Response: " ++ jsonRepr j)) := by
  rw [do_request_non200 hh hs hst]

/-- C6 witness: a 500 response with body `{"detail": "boom"}` yields
`EleroRequestError` rendering that parsed body. -/
theorem C6_non200_request_error_witness :
    (EleroAPI.do_request unauthState err500Server
        "http://localhost:8000/blinds/getblinds" "GET" none true).result =
      .error (.eleroRequestError ("Response: " ++ jsonRepr (.obj [("detail", .str "boom")]))) :=
  C6_non200_request_error unauthState err500Server "http://localhost:8000/blinds/getblinds"
    "GET" none true [] 500 (.obj [("detail", .str "boom")]) rfl rfl (by decide)

/-- C7: on 200, `get_blinds` returns exactly the `blinds` field of the
decoded body of a GET to the blinds collection endpoint, and
`get_blind(id)` returns exactly the `blind` field of the decoded body of
a GET to the path-parameterized sub-resource for that id. -/
theorem C7_get_blinds_fields (st : ApiState) (server : Server) (hdrs : List (String × Json))
    (g g2 v w : Json) (blindId : String)
    (hh : requestHeaders st = .ok hdrs)
    (h1 : server ⟨st.baseUrl ++ UrlConstants.URL_GETBLINDS, "GET", hdrs, none, true⟩ =
      .responds 200 (some g))
    (hv : jsonGet g "blinds" = .ok v)
    (h2 : server ⟨st.baseUrl ++ UrlConstants.URL_GETBLINDS ++ "/" ++ blindId, "GET",
        hdrs, none, true⟩ = .responds 200 (some g2))
    (hw : jsonGet g2 "blind" = .ok w) :
    EleroAPI.get_blinds st server =
      ⟨.ok v, [⟨st.baseUrl ++ UrlConstants.URL_GETBLINDS, "GET", hdrs, none, true⟩], []⟩ ∧
    EleroAPI.get_blind st server blindId =
      ⟨.ok w, [⟨st.baseUrl ++ UrlConstants.URL_GETBLINDS ++ "/" ++ blindId, "GET",
        hdrs, none, true⟩], []⟩ :=
  ⟨get_blinds_ok hh h1 hv, get_blind_ok hh h2 hw⟩

/-- C7 witness: against a concrete blinds server, `get_blinds` returns
the listing and `get_blind "b1"` returns the single record. -/
theorem C7_get_blinds_fields_witness :
    EleroAPI.get_blinds authState blindsServer =
      ⟨.ok mockBlinds,
        [⟨"http://localhost:8000/blinds/getblinds", "GET",
          [("WWW-Authenticate", .str "tok1")], none, true⟩], []⟩ ∧
    EleroAPI.get_blind authState blindsServer "b1" =
      ⟨.ok (.obj [("blind_id", .str "b1"), ("position", .num 40)]),
        [⟨"http://localhost:8000/blinds/getblinds/b1", "GET",
          [("WWW-Authenticate", .str "tok1")], none, true⟩], []⟩ :=
  C7_get_blinds_fields authState blindsServer [("WWW-Authenticate", .str "tok1")]
    (.obj [("blinds", mockBlinds)])
    (.obj [("blind", .obj [("blind_id", .str "b1"), ("position", .num 40)])])
    mockBlinds (.obj [("blind_id", .str "b1"), ("position", .num 40)]) "b1"
    rfl rfl rfl rfl rfl

/-- C8 counterexample: against exactly the mock server of the scenario
(ping `{"device_unique_id": "abc123"}`, login `{"access_token": "tok1"}`,
listing `{"blinds": [...]}`, all 200), construction of `EleroClient`
still fails when the environment does not resolve the autodiscovery
hostnames — the constructor probes `raspberrypi.local` (autodiscovery is
left at its default) and the `socket.gaierror` escapes — refuting
"constructing EleroClient succeeds". -/
theorem C8_construction_fails_without_dns :
    (EleroClient.init "u" "p" failResolver mockServer).result =
      .error (.socketGaierror "Name or service not known") := rfl

/-- C8 (amended): given additionally an environment in which the first
autodiscovery hostname `raspberrypi.local` resolves, constructing
`EleroClient` against the scenario's mock server succeeds and yields
`device_id = "abc123"` and `blinds = [{"blind_id": "b1"},
{"blind_id": "b2"}]`. -/
theorem C8_end_to_end (resolver : Resolver) (ip : String)
    (hres : resolver "raspberrypi.local" = .ok (some ip)) :
    ∃ cs : ClientState, (EleroClient.init "ha_user" "pw" resolver mockServer).result = .ok cs ∧
      cs.device_id = some (.str "abc123") ∧ cs.blinds = some mockBlinds := by
  rw [client_init_ok "ha_user" "pw" ip resolver mockServer
    (.obj [("device_unique_id", .str "abc123")]) (.obj [("access_token", .str "tok1")])
    (.obj [("blinds", mockBlinds)]) (.str "abc123") (.str "tok1") mockBlinds
    hres rfl rfl rfl rfl rfl rfl]
  exact ⟨_, rfl, rfl, rfl⟩

/-- C8 witness: the amended statement evaluated in a resolving
environment. -/
theorem C8_end_to_end_witness :
    ∃ cs : ClientState, (EleroClient.init "ha_user" "pw" okResolver mockServer).result = .ok cs ∧
      cs.device_id = some (.str "abc123") ∧ cs.blinds = some mockBlinds :=
  C8_end_to_end okResolver "192.168.1.5" rfl

/-- C9: `EleroClient.update` propagates any error of `get_blinds` and
leaves the whole client state — in particular the cached `blinds`
sequence — unchanged; the cache is replaced exactly when the listing
succeeds. -/
theorem C9_update_cache (cs : ClientState) (server : Server) :
    (EleroClient.update cs server).result =
      (EleroAPI.get_blinds cs.api server).result.map (fun _ => ()) ∧
    (EleroClient.update cs server).state =
      (match (EleroAPI.get_blinds cs.api server).result with
        | .error _ => cs
        | .ok b => { cs with blinds := some b }) := by
  simp only [EleroClient.update]
  cases h : (EleroAPI.get_blinds cs.api server).result <;> simp [h, Except.map]

/-- C10: `_login` sets `isAuthenticated = True` before reading
`access_token` from the login response, so a 200 login response lacking
that field raises `KeyError("access_token")` while leaving the client
with `isAuthenticated = true` and no token set: login is not atomic on
this error. -/
theorem C10_login_sets_flag_before_token (st : ApiState) (server : Server) (g : Json)
    (hA : st.isAuthenticated = false) (hT : st.token = none)
    (hs : server ⟨st.baseUrl ++ UrlConstants.URL_LOGIN, "POST", [],
        some (.obj [("username", .str st.username), ("password", .str st.password)]), false⟩ =
      .responds 200 (some g))
    (hk : jsonGet g "access_token" = .error (.keyError "access_token")) :
    (EleroAPI.login st server).result = .error (.keyError "access_token") ∧
    (EleroAPI.login st server).state.isAuthenticated = true ∧
    (EleroAPI.login st server).state.token = none := by
  simp only [EleroAPI.login]
  rw [do_request_ok (requestHeaders_of_unauth hA) hs]
  dsimp only
  rw [hk]
  exact ⟨rfl, rfl, hT⟩

/-- C10 witness: a 200 login response `{"detail": "no token here"}`
raises `KeyError` and leaves `isAuthenticated = true`, `token` unset. -/
theorem C10_login_sets_flag_before_token_witness :
    (EleroAPI.login unauthState badLoginServer).result = .error (.keyError "access_token") ∧
    (EleroAPI.login unauthState badLoginServer).state.isAuthenticated = true ∧
    (EleroAPI.login unauthState badLoginServer).state.token = none :=
  C10_login_sets_flag_before_token unauthState badLoginServer
    (.obj [("detail", .str "no token here")]) rfl rfl rfl rfl

end EleroPi
